import Mathlib

/-
Verification development for the causal-inference estimator core exercised by
the repository notebooks (AIPTW, TMLE, TimeFixedGFormula).  The estimator
implementations live in the external zEpid library and are not part of the
repository; following the specification document, the estimator core is
modelled here from the spec text (sections 4.2 to 4.4), with exact rational
arithmetic in place of floating point and real-valued link functions where the
targeting step needs them.
-/

/-- Modelled from the spec: a dataset record with the binary treatment
indicator A, the outcome Y and the numeric covariate vector L (section 3,
Dataset). -/
structure DataRow where
  a : ℚ
  y : ℚ
  l : List ℚ

/-- Indicator function I(x = t) appearing in the pseudo-outcome formulas. -/
def ind (x t : ℚ) : ℚ := if x = t then 1 else 0

/-- Mean of a list of rationals, used for the averaging steps of every
estimator. -/
def listMean (xs : List ℚ) : ℚ := xs.sum / xs.length

/-- Modelled from the spec: optional propensity truncation, clipping a
predicted propensity to the closed interval given by the bound argument of
exposure_model (section 4.3). -/
def applyBound : Option (ℚ × ℚ) → ℚ → ℚ
  | Option.none, p => p
  | Option.some (lo, hi), p => max lo (min hi p)

/-- Modelled from the spec: the AIPTW estimator state of section 4.3 with a
dataset, a fitted exposure (propensity) model, a fitted outcome model and the
optional propensity bound.  The fitted models are deterministic prediction
functions as in section 3 (Fitted Model). -/
structure AIPTW where
  data : List DataRow
  gModel : List ℚ → ℚ
  qModel : ℚ → List ℚ → ℚ
  bound : Option (ℚ × ℚ)

/-- Propensity used by AIPTW for a record: the exposure-model prediction on
the covariates, with the configured bound applied. -/
def AIPTW.propensity (s : AIPTW) (r : DataRow) : ℚ :=
  applyBound s.bound (s.gModel r.l)

/-- Probability of the treatment arm a for a record: the propensity for a = 1
and its complement for a = 0. -/
def AIPTW.prA (s : AIPTW) (a : ℚ) (r : DataRow) : ℚ :=
  if a = 1 then s.propensity r else 1 - s.propensity r

/-- Modelled from the spec: the doubly-robust pseudo-outcome of section 4.3
for one record under treatment arm a, an inverse-propensity-weighted outcome
term plus an augmentation term correcting the outcome-model residual. -/
def AIPTW.pseudoOutcome (s : AIPTW) (a : ℚ) (r : DataRow) : ℚ :=
  r.y * ind r.a a / s.prA a r
    - s.qModel a r.l * (ind r.a a - s.prA a r) / (1 - s.prA a r)

/-- Estimated counterfactual risk under treatment arm a: the mean of the
pseudo-outcomes over the dataset. -/
def AIPTW.riskA (s : AIPTW) (a : ℚ) : ℚ :=
  listMean (s.data.map (s.pseudoOutcome a))

/-- Point estimates produced by the fit method of AIPTW. -/
structure AIPTWResult where
  risk_difference : ℚ
  risk_ratio : ℚ

/-- Modelled from the spec: the fit method of AIPTW (section 4.3), returning
the risk difference and risk ratio built from the two counterfactual risks. -/
def AIPTW.fit (s : AIPTW) : AIPTWResult :=
  ⟨s.riskA 1 - s.riskA 0, s.riskA 1 / s.riskA 0⟩

/-- The doubly-robust pseudo-outcome at a = 1 exactly as the claim writes it,
with the propensity P(A=1|L) in both denominators. -/
def drOne (s : AIPTW) (r : DataRow) : ℚ :=
  r.y * ind r.a 1 / s.propensity r
    - s.qModel 1 r.l * (ind r.a 1 - s.propensity r) / (1 - s.propensity r)

/-- The doubly-robust pseudo-outcome at a = 0 exactly as the claim writes it,
with P(A=0|L) = 1 - P(A=1|L) substituted for the propensity. -/
def drZero (s : AIPTW) (r : DataRow) : ℚ :=
  r.y * ind r.a 0 / (1 - s.propensity r)
    - s.qModel 0 r.l * (ind r.a 0 - (1 - s.propensity r))
      / (1 - (1 - s.propensity r))

lemma pseudoOutcome_one (s : AIPTW) (r : DataRow) :
    s.pseudoOutcome 1 r = drOne s r := by
  simp [AIPTW.pseudoOutcome, drOne, AIPTW.prA]

lemma pseudoOutcome_zero (s : AIPTW) (r : DataRow) :
    s.pseudoOutcome 0 r = drZero s r := by
  simp [AIPTW.pseudoOutcome, drZero, AIPTW.prA]

lemma map_pseudoOutcome_one (s : AIPTW) :
    s.data.map (s.pseudoOutcome 1) = s.data.map (drOne s) := by
  have h : s.pseudoOutcome 1 = drOne s := funext (pseudoOutcome_one s)
  rw [h]

lemma map_pseudoOutcome_zero (s : AIPTW) :
    s.data.map (s.pseudoOutcome 0) = s.data.map (drZero s) := by
  have h : s.pseudoOutcome 0 = drZero s := funext (pseudoOutcome_zero s)
  rw [h]

/-- C1: for every record AIPTW.fit computes the doubly-robust pseudo-outcome
DR_a = (Y*I(A=a))/P(A=a|L) - (Yhat(A=a,L)*(I(A=a) - P(A=a|L)))/(1-P(A=a|L)),
evaluated at a = 1 and a = 0 with the fitted exposure-model propensity and the
fitted outcome-model prediction, and returns the risk difference
mean(DR_1) - mean(DR_0) and the risk ratio mean(DR_1)/mean(DR_0). -/
theorem aiptw_fit_doubly_robust (s : AIPTW) :
    (∀ r : DataRow,
        s.pseudoOutcome 1 r = drOne s r ∧ s.pseudoOutcome 0 r = drZero s r) ∧
    (s.fit).risk_difference
        = listMean (s.data.map (drOne s)) - listMean (s.data.map (drZero s)) ∧
    (s.fit).risk_ratio
        = listMean (s.data.map (drOne s)) / listMean (s.data.map (drZero s)) := by
  refine ⟨fun r => ⟨pseudoOutcome_one s r, pseudoOutcome_zero s r⟩, ?_, ?_⟩ <;>
    simp [AIPTW.fit, AIPTW.riskA, map_pseudoOutcome_one, map_pseudoOutcome_zero]

/-- Modelled from the spec: the empirical influence curve of the AIPTW risk
difference, with per-record contribution DR_1 - DR_0 - risk_difference
(section 4.3, Variance/CI). -/
def AIPTW.influenceCurve (s : AIPTW) : List ℚ :=
  s.data.map (fun r =>
    s.pseudoOutcome 1 r - s.pseudoOutcome 0 r - (s.fit).risk_difference)

/-- Sample variance of a list of rationals, summing squared deviations from
the mean and dividing by n - 1. -/
def sampleVariance (xs : List ℚ) : ℚ :=
  ((xs.map (fun x => (x - listMean xs) ^ 2)).sum) / ((xs.length : ℚ) - 1)

/-- Sample standard deviation of a list of rationals, as a real number. -/
noncomputable def sampleStdDev (xs : List ℚ) : ℝ :=
  Real.sqrt ((sampleVariance xs : ℚ) : ℝ)

/-- Modelled from the spec: the standard error of the AIPTW risk difference,
the sample standard deviation of the influence curve divided by the square
root of the number of records (section 4.3, Variance/CI). -/
noncomputable def AIPTW.standardError (s : AIPTW) : ℝ :=
  sampleStdDev s.influenceCurve / Real.sqrt (s.data.length : ℝ)

/-- Modelled from the spec: the 95 percent confidence interval of the AIPTW
risk difference, the point estimate plus or minus 1.96 standard errors. -/
noncomputable def AIPTW.rdConfidenceInterval (s : AIPTW) : ℝ × ℝ :=
  (((s.fit).risk_difference : ℝ) - 196 / 100 * s.standardError,
   ((s.fit).risk_difference : ℝ) + 196 / 100 * s.standardError)

/-- Modelled from the spec: no influence-curve confidence interval is
produced for the AIPTW risk ratio (a documented limitation, section 4.3). -/
def AIPTW.rrConfidenceInterval (_ : AIPTW) : Option (ℝ × ℝ) :=
  Option.none

/-- C4: the AIPTW 95 percent confidence interval for the risk difference is
computed from the empirical influence curve with per-record contribution
DR_1 - DR_0 - risk_difference, standard error equal to the sample standard
deviation of the influence curve divided by sqrt(n), and interval equal to
the point estimate plus or minus 1.96 standard errors; no influence-curve
confidence interval is produced for the risk ratio. -/
theorem aiptw_confidence_interval (s : AIPTW) :
    s.influenceCurve
        = s.data.map (fun r => drOne s r - drZero s r - (s.fit).risk_difference) ∧
    s.standardError = sampleStdDev s.influenceCurve / Real.sqrt (s.data.length : ℝ) ∧
    s.rdConfidenceInterval
        = (((s.fit).risk_difference : ℝ) - 196 / 100 * s.standardError,
           ((s.fit).risk_difference : ℝ) + 196 / 100 * s.standardError) ∧
    s.rrConfidenceInterval = Option.none := by
  refine ⟨?_, rfl, rfl, rfl⟩
  unfold AIPTW.influenceCurve
  exact List.map_congr_left fun r _ => by
    rw [pseudoOutcome_one, pseudoOutcome_zero]

/-- Modelled from the spec: the TMLE estimator state of section 4.4 with a
dataset, a fitted exposure model, a fitted outcome model and the optional
propensity bound. -/
structure TMLE where
  data : List DataRow
  gModel : List ℚ → ℚ
  qModel : ℚ → List ℚ → ℚ
  bound : Option (ℚ × ℚ)

/-- Propensity g(L) = P(A=1|L) used by TMLE for a record, with the configured
bound applied (section 4.4, step 2). -/
def TMLE.g (s : TMLE) (r : DataRow) : ℚ :=
  applyBound s.bound (s.gModel r.l)

/-- Modelled from the spec: the clever covariate of the targeting step,
H = I(A=1)/g(L) - I(A=0)/(1-g(L)) (section 4.4, step 3). -/
def TMLE.cleverH (s : TMLE) (r : DataRow) : ℚ :=
  ind r.a 1 / s.g r - ind r.a 0 / (1 - s.g r)

/-- Modelled from the spec: the treatment-specific clever covariate
H1 = 1/g(L) (section 4.4, step 3). -/
def TMLE.cleverH1 (s : TMLE) (r : DataRow) : ℚ :=
  1 / s.g r

/-- Modelled from the spec: the treatment-specific clever covariate
H0 = -1/(1-g(L)) (section 4.4, step 3). -/
def TMLE.cleverH0 (s : TMLE) (r : DataRow) : ℚ :=
  -(1 / (1 - s.g r))

/-- Inverse logit link used by the targeting step. -/
noncomputable def expit (x : ℝ) : ℝ := 1 / (1 + Real.exp (-x))

/-- Logit link used by the targeting step. -/
noncomputable def logit (p : ℝ) : ℝ := Real.log (p / (1 - p))

/-- Modelled from the spec: the targeted counterfactual prediction
Qstar(1,L) = expit(logit(Q0(1,L)) + eps * H1) (section 4.4, step 5), with the
fluctuation parameter eps taken as input since the one-parameter fluctuation
regression that produces it is a numerical fitting step. -/
noncomputable def TMLE.qStarOne (s : TMLE) (eps : ℝ) (r : DataRow) : ℝ :=
  expit (logit ((s.qModel 1 r.l : ℚ) : ℝ) + eps * ((s.cleverH1 r : ℚ) : ℝ))

/-- Modelled from the spec: the targeted counterfactual prediction
Qstar(0,L) = expit(logit(Q0(0,L)) + eps * H0) (section 4.4, step 5). -/
noncomputable def TMLE.qStarZero (s : TMLE) (eps : ℝ) (r : DataRow) : ℝ :=
  expit (logit ((s.qModel 0 r.l : ℚ) : ℝ) + eps * ((s.cleverH0 r : ℚ) : ℝ))

/-- Mean of a list of reals. -/
noncomputable def realMean (xs : List ℝ) : ℝ := xs.sum / xs.length

/-- Mean of the targeted predictions under treatment over the dataset. -/
noncomputable def TMLE.meanOne (s : TMLE) (eps : ℝ) : ℝ :=
  realMean (s.data.map (s.qStarOne eps))

/-- Mean of the targeted predictions under no treatment over the dataset. -/
noncomputable def TMLE.meanZero (s : TMLE) (eps : ℝ) : ℝ :=
  realMean (s.data.map (s.qStarZero eps))

/-- Point estimates produced by the fit method of TMLE. -/
structure TMLEResult where
  risk_difference : ℝ
  risk_ratio : ℝ
  odds_ratio : ℝ

/-- Modelled from the spec: the fit method of TMLE (section 4.4, step 5),
returning the risk difference as the mean of the per-record differences of
targeted predictions, the risk ratio as the ratio of the two means, and the
odds ratio built from the odds of the two means. -/
noncomputable def TMLE.fit (s : TMLE) (eps : ℝ) : TMLEResult :=
  ⟨realMean (s.data.map (fun r => s.qStarOne eps r - s.qStarZero eps r)),
   s.meanOne eps / s.meanZero eps,
   (s.meanOne eps / (1 - s.meanOne eps)) / (s.meanZero eps / (1 - s.meanZero eps))⟩

lemma sum_map_sub (l : List DataRow) (f h : DataRow → ℝ) :
    (l.map (fun x => f x - h x)).sum = (l.map f).sum - (l.map h).sum := by
  induction l with
  | nil => simp
  | cons a t ih => simp [ih]; ring

lemma realMean_map_sub (l : List DataRow) (f h : DataRow → ℝ) :
    realMean (l.map (fun x => f x - h x))
      = realMean (l.map f) - realMean (l.map h) := by
  unfold realMean
  rw [sum_map_sub]
  simp [sub_div]

lemma tmle_fit_rd (s : TMLE) (eps : ℝ) :
    (s.fit eps).risk_difference = s.meanOne eps - s.meanZero eps := by
  show realMean (s.data.map (fun r => s.qStarOne eps r - s.qStarZero eps r))
      = s.meanOne eps - s.meanZero eps
  rw [realMean_map_sub]
  rfl

/-- C2: TMLE.fit computes the targeted counterfactual predictions
Qstar(1,L) = expit(logit(Q0(1,L)) + eps * H1) and
Qstar(0,L) = expit(logit(Q0(0,L)) + eps * H0) for every record, with
H1 = 1/g(L) and H0 = -1/(1-g(L)), and returns the risk difference
mean(Qstar(1,L) - Qstar(0,L)), the risk ratio mean(Qstar(1,L))/mean(Qstar(0,L)),
and the odds ratio computed from the odds of those two means. -/
theorem tmle_fit_targeting (s : TMLE) (eps : ℝ) :
    (∀ r : DataRow,
        s.qStarOne eps r
          = expit (logit ((s.qModel 1 r.l : ℚ) : ℝ) + eps * (1 / ((s.g r : ℚ) : ℝ))) ∧
        s.qStarZero eps r
          = expit (logit ((s.qModel 0 r.l : ℚ) : ℝ)
              + eps * (-(1 / (1 - ((s.g r : ℚ) : ℝ)))))) ∧
    (s.fit eps).risk_difference
        = realMean (s.data.map (fun r => s.qStarOne eps r - s.qStarZero eps r)) ∧
    (s.fit eps).risk_difference = s.meanOne eps - s.meanZero eps ∧
    (s.fit eps).risk_ratio = s.meanOne eps / s.meanZero eps ∧
    (s.fit eps).odds_ratio
        = (s.meanOne eps / (1 - s.meanOne eps))
            / (s.meanZero eps / (1 - s.meanZero eps)) := by
  refine ⟨fun r => ⟨?_, ?_⟩, rfl, tmle_fit_rd s eps, rfl, rfl⟩
  · unfold TMLE.qStarOne TMLE.cleverH1
    push_cast
    ring_nf
  · unfold TMLE.qStarZero TMLE.cleverH0
    push_cast
    ring_nf

lemma odds_lt_odds_iff (a b : ℝ) (ha1 : a < 1) (hb1 : b < 1) :
    a / (1 - a) < b / (1 - b) ↔ a < b := by
  rw [div_lt_div_iff₀ (by linarith) (by linarith)]
  constructor <;> intro h <;> nlinarith

lemma odds_eq_odds_iff (a b : ℝ) (ha1 : a < 1) (hb1 : b < 1) :
    a / (1 - a) = b / (1 - b) ↔ a = b := by
  rw [div_eq_div_iff (by linarith) (by linarith)]
  constructor <;> intro h <;> nlinarith

/-- C10: writing m1 and m0 for the means of the targeted predictions, both
strictly between 0 and 1, the three TMLE point estimates agree in direction:
the risk difference is negative exactly when the risk ratio is below 1,
exactly when the odds ratio is below 1, and likewise for equality and for the
positive direction. -/
theorem tmle_direction_agreement (s : TMLE) (eps : ℝ)
    (h10 : 0 < s.meanOne eps) (h11 : s.meanOne eps < 1)
    (h00 : 0 < s.meanZero eps) (h01 : s.meanZero eps < 1) :
    ((s.fit eps).risk_difference < 0 ↔ (s.fit eps).risk_ratio < 1) ∧
    ((s.fit eps).risk_ratio < 1 ↔ (s.fit eps).odds_ratio < 1) ∧
    ((s.fit eps).risk_difference = 0 ↔ (s.fit eps).risk_ratio = 1) ∧
    ((s.fit eps).risk_ratio = 1 ↔ (s.fit eps).odds_ratio = 1) ∧
    (0 < (s.fit eps).risk_difference ↔ 1 < (s.fit eps).risk_ratio) ∧
    (1 < (s.fit eps).risk_ratio ↔ 1 < (s.fit eps).odds_ratio) := by
  have hrd : (s.fit eps).risk_difference = s.meanOne eps - s.meanZero eps :=
    tmle_fit_rd s eps
  have hrr : (s.fit eps).risk_ratio = s.meanOne eps / s.meanZero eps := rfl
  have hor : (s.fit eps).odds_ratio
      = (s.meanOne eps / (1 - s.meanOne eps))
          / (s.meanZero eps / (1 - s.meanZero eps)) := rfl
  rw [hrd, hrr, hor]
  have hodds0 : 0 < s.meanZero eps / (1 - s.meanZero eps) :=
    div_pos h00 (by linarith)
  refine ⟨?_, ?_, ?_, ?_, ?_, ?_⟩
  · rw [sub_neg, div_lt_one h00]
  · rw [div_lt_one h00, div_lt_one hodds0,
      odds_lt_odds_iff _ _ h11 h01]
  · rw [sub_eq_zero, div_eq_one_iff_eq (ne_of_gt h00)]
  · rw [div_eq_one_iff_eq (ne_of_gt h00), div_eq_one_iff_eq (ne_of_gt hodds0),
      odds_eq_odds_iff _ _ h11 h01]
  · rw [sub_pos, one_lt_div h00]
  · rw [one_lt_div h00, one_lt_div hodds0,
      odds_lt_odds_iff _ _ h01 h11]

/-- Concrete record used by the witness instances. -/
def witnessRow : DataRow := ⟨1, 1, []⟩

/-- Concrete TMLE instance whose targeted prediction means both equal 1/2. -/
def tmleWitness : TMLE :=
  ⟨[witnessRow], fun _ => 1 / 2, fun _ _ => 1 / 2, Option.none⟩

lemma tmleWitness_meanOne : tmleWitness.meanOne 0 = 1 / 2 := by
  simp only [TMLE.meanOne, realMean, TMLE.qStarOne, tmleWitness, expit, logit,
    List.map_cons, List.map_nil, List.sum_cons, List.sum_nil, List.length_cons,
    List.length_nil]
  norm_num [Real.log_one, Real.exp_zero]

lemma tmleWitness_meanZero : tmleWitness.meanZero 0 = 1 / 2 := by
  simp only [TMLE.meanZero, realMean, TMLE.qStarZero, tmleWitness, expit, logit,
    List.map_cons, List.map_nil, List.sum_cons, List.sum_nil, List.length_cons,
    List.length_nil]
  norm_num [Real.log_one, Real.exp_zero]

/-- Witness for C10 at a concrete TMLE instance with both targeted means
equal to 1/2. -/
theorem tmle_direction_agreement_witness :
    (0 < tmleWitness.meanOne 0 ∧ tmleWitness.meanOne 0 < 1 ∧
     0 < tmleWitness.meanZero 0 ∧ tmleWitness.meanZero 0 < 1) ∧
    ((tmleWitness.fit 0).risk_difference = 0 ↔ (tmleWitness.fit 0).risk_ratio = 1) := by
  have h10 : 0 < tmleWitness.meanOne 0 := by rw [tmleWitness_meanOne]; norm_num
  have h11 : tmleWitness.meanOne 0 < 1 := by rw [tmleWitness_meanOne]; norm_num
  have h00 : 0 < tmleWitness.meanZero 0 := by rw [tmleWitness_meanZero]; norm_num
  have h01 : tmleWitness.meanZero 0 < 1 := by rw [tmleWitness_meanZero]; norm_num
  exact ⟨⟨h10, h11, h00, h01⟩,
    (tmle_direction_agreement tmleWitness 0 h10 h11 h00 h01).2.2.1⟩

/-- Modelled from the spec: the error raised when estimation is requested
before the required model-specification call (section 7). -/
inductive EstimationError where
  | ModelNotSpecifiedError

/-- Modelled from the spec: a treatment rule assigning each record a value in
the set 0 or 1, with the built-in rules all (treat everyone) and none (treat
no one) and custom row-level boolean predicates (section 3, Treatment
Rule). -/
inductive TreatmentRule where
  | all
  | none
  | custom (p : DataRow → Bool)

/-- Treatment value assigned by a rule to a record: 1 under the rule all,
0 under the rule none, and the predicate value for a custom rule. -/
def TreatmentRule.assign : TreatmentRule → DataRow → ℚ
  | TreatmentRule.all, _ => 1
  | TreatmentRule.none, _ => 0
  | TreatmentRule.custom p, r => if p r then 1 else 0

/-- Modelled from the spec: the g-formula estimator state of section 4.2 with
a dataset, the fitted outcome model (initially absent) and the marginal
outcome produced by fit (initially absent). -/
structure TimeFixedGFormula where
  data : List DataRow
  outModel : Option (ℚ → List ℚ → ℚ)
  marginal_outcome : Option ℚ

/-- Fresh g-formula estimator over a dataset: no fitted outcome model and no
estimate present. -/
def TimeFixedGFormula.init (data : List DataRow) : TimeFixedGFormula :=
  ⟨data, Option.none, Option.none⟩

/-- Modelled from the spec: the outcome_model call of section 4.2, storing
the fitted outcome model. -/
def TimeFixedGFormula.outcome_model (g : TimeFixedGFormula)
    (m : ℚ → List ℚ → ℚ) : TimeFixedGFormula :=
  { g with outModel := Option.some m }

/-- Standardized mean: the average over the dataset of the outcome-model
prediction with the treatment forced to the value the rule assigns to the
record and the covariates held at their observed values. -/
def standardizedMean (m : ℚ → List ℚ → ℚ) (data : List DataRow)
    (rule : TreatmentRule) : ℚ :=
  listMean (data.map (fun r => m (rule.assign r) r.l))

/-- Modelled from the spec: the fit call of section 4.2, which fails with
ModelNotSpecifiedError when no outcome model has been fitted and otherwise
overwrites the marginal outcome with the standardized mean under the given
treatment rule. -/
def TimeFixedGFormula.fit (g : TimeFixedGFormula) (rule : TreatmentRule) :
    Except EstimationError TimeFixedGFormula :=
  match g.outModel with
  | Option.none => Except.error EstimationError.ModelNotSpecifiedError
  | Option.some m =>
      Except.ok { g with marginal_outcome := Option.some (standardizedMean m g.data rule) }

/-- One fit call threaded as a state transition, keeping the previous state
when the call fails. -/
def TimeFixedGFormula.fitStep (g : TimeFixedGFormula) (rule : TreatmentRule) :
    TimeFixedGFormula :=
  match g.fit rule with
  | Except.ok g2 => g2
  | Except.error _ => g

/-- A sequence of fit calls with a list of treatment rules. -/
def TimeFixedGFormula.fitFold (g : TimeFixedGFormula)
    (rules : List TreatmentRule) : TimeFixedGFormula :=
  rules.foldl TimeFixedGFormula.fitStep g

/-- C3: for every dataset and treatment rule, fit on a g-formula estimator
with a fitted outcome model predicts, for every record, the outcome from the
stored fitted model with the treatment forced to the value the rule assigns
and the other covariates at their observed values, and sets the marginal
outcome to the average of these predictions; the built-in rule all forces
treatment 1 and the rule none forces treatment 0 for every record. -/
theorem gformula_fit_marginal (g : TimeFixedGFormula) (m : ℚ → List ℚ → ℚ)
    (rule : TreatmentRule) :
    (g.outcome_model m).fit rule
        = Except.ok { data := g.data, outModel := Option.some m,
                      marginal_outcome :=
                        Option.some (listMean (g.data.map (fun r => m (rule.assign r) r.l))) } ∧
    (∀ r : DataRow,
        TreatmentRule.all.assign r = 1 ∧ TreatmentRule.none.assign r = 0) :=
  ⟨rfl, fun _ => ⟨rfl, rfl⟩⟩

lemma fitStep_preserves (s : TimeFixedGFormula) (rule : TreatmentRule) :
    (s.fitStep rule).outModel = s.outModel ∧ (s.fitStep rule).data = s.data := by
  cases h : s.outModel <;>
    simp [TimeFixedGFormula.fitStep, TimeFixedGFormula.fit, h]

lemma fitFold_preserves (rules : List TreatmentRule) (s : TimeFixedGFormula) :
    (s.fitFold rules).outModel = s.outModel ∧ (s.fitFold rules).data = s.data := by
  induction rules generalizing s with
  | nil => exact ⟨rfl, rfl⟩
  | cons rule rest ih =>
      have hs := fitStep_preserves s rule
      have hr := ih (s.fitStep rule)
      exact ⟨hr.1.trans hs.1, hr.2.trans hs.2⟩

/-- C7: on a g-formula estimator with a fitted outcome model, any sequence of
fit calls with any treatment rules leaves the fitted outcome model and the
dataset unchanged, and each single call only overwrites the marginal outcome
with the standardized mean for its rule. -/
theorem gformula_fit_immutable_model (g : TimeFixedGFormula)
    (m : ℚ → List ℚ → ℚ) (rules : List TreatmentRule) :
    ((g.outcome_model m).fitFold rules).outModel = Option.some m ∧
    ((g.outcome_model m).fitFold rules).data = g.data ∧
    (∀ rule : TreatmentRule,
        (g.outcome_model m).fit rule
          = Except.ok { data := g.data, outModel := Option.some m,
                        marginal_outcome := Option.some (standardizedMean m g.data rule) }) := by
  have h := fitFold_preserves rules (g.outcome_model m)
  exact ⟨h.1, h.2, fun _ => rfl⟩

/-- Builder-style AIPTW estimator with optional models, tracking whether the
model-specification calls have been made before fit. -/
structure AIPTWBuilder where
  data : List DataRow
  gModel : Option (List ℚ → ℚ)
  qModel : Option (ℚ → List ℚ → ℚ)
  bound : Option (ℚ × ℚ)

/-- Fresh AIPTW estimator over a dataset: neither model specified yet. -/
def AIPTWBuilder.init (data : List DataRow) : AIPTWBuilder :=
  ⟨data, Option.none, Option.none, Option.none⟩

/-- Modelled from the spec: the exposure_model call of section 4.3, storing
the fitted propensity model and the optional bound. -/
def AIPTWBuilder.exposure_model (b : AIPTWBuilder) (g : List ℚ → ℚ)
    (bd : Option (ℚ × ℚ)) : AIPTWBuilder :=
  { b with gModel := Option.some g, bound := bd }

/-- Modelled from the spec: the outcome_model call of section 4.3, storing
the fitted outcome model. -/
def AIPTWBuilder.outcome_model (b : AIPTWBuilder)
    (q : ℚ → List ℚ → ℚ) : AIPTWBuilder :=
  { b with qModel := Option.some q }

/-- Modelled from the spec: the fit call of AIPTW, failing with
ModelNotSpecifiedError unless both models have been specified (section 7). -/
def AIPTWBuilder.fit (b : AIPTWBuilder) : Except EstimationError AIPTWResult :=
  match b.gModel, b.qModel with
  | Option.some gm, Option.some qm => Except.ok (AIPTW.fit ⟨b.data, gm, qm, b.bound⟩)
  | _, _ => Except.error EstimationError.ModelNotSpecifiedError

/-- C8: calling fit before the required model-specification call fails with
ModelNotSpecifiedError; in particular fit on a fresh g-formula estimator,
before outcome_model, returns that error and leaves no estimate present, and
fit on an AIPTW estimator with a missing model does the same. -/
theorem fit_before_model_error (data : List DataRow) (rule : TreatmentRule)
    (gm : List ℚ → ℚ) (bd : Option (ℚ × ℚ)) :
    (TimeFixedGFormula.init data).fit rule
        = Except.error EstimationError.ModelNotSpecifiedError ∧
    (TimeFixedGFormula.init data).marginal_outcome = Option.none ∧
    (AIPTWBuilder.init data).fit
        = Except.error EstimationError.ModelNotSpecifiedError ∧
    ((AIPTWBuilder.init data).exposure_model gm bd).fit
        = Except.error EstimationError.ModelNotSpecifiedError :=
  ⟨rfl, rfl, rfl, rfl⟩

/-- C5: when the exposure model is configured with a bound, every propensity
used by the downstream computations of TMLE and AIPTW lies in the closed
interval given by the bound. -/
theorem exposure_model_bound_clips (st : TMLE) (sa : AIPTW) (lo hi : ℚ)
    (hst : st.bound = Option.some (lo, hi)) (hsa : sa.bound = Option.some (lo, hi))
    (hlh : lo ≤ hi) :
    (∀ r : DataRow, lo ≤ st.g r ∧ st.g r ≤ hi) ∧
    (∀ r : DataRow, lo ≤ sa.propensity r ∧ sa.propensity r ≤ hi) := by
  refine ⟨fun r => ?_, fun r => ?_⟩
  · unfold TMLE.g
    rw [hst]
    simp only [applyBound]
    exact ⟨le_max_left _ _, max_le hlh (min_le_left _ _)⟩
  · unfold AIPTW.propensity
    rw [hsa]
    simp only [applyBound]
    exact ⟨le_max_left _ _, max_le hlh (min_le_left _ _)⟩

/-- Concrete TMLE instance with the bound 0.01 to 0.99 and a raw propensity
prediction outside the bound. -/
def tmleBoundWitness : TMLE :=
  ⟨[witnessRow], fun _ => 999 / 1000, fun _ _ => 1 / 2, Option.some (1 / 100, 99 / 100)⟩

/-- Concrete AIPTW instance with the bound 0.01 to 0.99. -/
def aiptwBoundWitness : AIPTW :=
  ⟨[witnessRow], fun _ => 999 / 1000, fun _ _ => 1 / 2, Option.some (1 / 100, 99 / 100)⟩

/-- Witness for C5 at the bound 0.01 to 0.99. -/
theorem exposure_model_bound_clips_witness :
    (tmleBoundWitness.bound = Option.some (1 / 100, 99 / 100) ∧
     (1 : ℚ) / 100 ≤ 99 / 100) ∧
    (∀ r : DataRow,
        1 / 100 ≤ tmleBoundWitness.g r ∧ tmleBoundWitness.g r ≤ 99 / 100) :=
  ⟨⟨rfl, by norm_num⟩,
   (exposure_model_bound_clips tmleBoundWitness aiptwBoundWitness
      (1 / 100) (99 / 100) rfl rfl (by norm_num)).1⟩

/-- Division guarded against a zero divisor, used to witness that the
estimator divisions are total. -/
def divChecked (x d : ℚ) : Option ℚ :=
  if d = 0 then Option.none else Option.some (x / d)

/-- The pseudo-outcome computation with every division guarded against a zero
divisor. -/
def AIPTW.pseudoOutcomeChecked (s : AIPTW) (a : ℚ) (r : DataRow) : Option ℚ :=
  (divChecked (r.y * ind r.a a) (s.prA a r)).bind (fun t1 =>
    (divChecked (s.qModel a r.l * (ind r.a a - s.prA a r)) (1 - s.prA a r)).map
      (fun t2 => t1 - t2))

/-- Collects a list of optional values, returning them all when none is
missing. -/
def sequenceOption : List (Option ℚ) → Option (List ℚ)
  | [] => Option.some []
  | x :: xs => x.bind (fun v => (sequenceOption xs).map (fun vs => v :: vs))

/-- The counterfactual risk computation with guarded divisions: defined
exactly when no record hits a zero divisor. -/
def AIPTW.riskAChecked (s : AIPTW) (a : ℚ) : Option ℚ :=
  (sequenceOption (s.data.map (s.pseudoOutcomeChecked a))).map listMean

/-- The clever covariate H with guarded divisions. -/
def TMLE.cleverHChecked (s : TMLE) (r : DataRow) : Option ℚ :=
  (divChecked (ind r.a 1) (s.g r)).bind (fun x =>
    (divChecked (ind r.a 0) (1 - s.g r)).map (fun z => x - z))

/-- The clever covariate H1 with a guarded division. -/
def TMLE.cleverOneChecked (s : TMLE) (r : DataRow) : Option ℚ :=
  divChecked 1 (s.g r)

/-- The clever covariate H0 with a guarded division. -/
def TMLE.cleverZeroChecked (s : TMLE) (r : DataRow) : Option ℚ :=
  (divChecked 1 (1 - s.g r)).map (fun x => -x)

/-- All clever covariates H over the dataset with guarded divisions. -/
def TMLE.cleverAllChecked (s : TMLE) : Option (List ℚ) :=
  sequenceOption (s.data.map s.cleverHChecked)

/-- All clever covariates H1 over the dataset with guarded divisions. -/
def TMLE.cleverAllOneChecked (s : TMLE) : Option (List ℚ) :=
  sequenceOption (s.data.map s.cleverOneChecked)

/-- All clever covariates H0 over the dataset with guarded divisions. -/
def TMLE.cleverAllZeroChecked (s : TMLE) : Option (List ℚ) :=
  sequenceOption (s.data.map s.cleverZeroChecked)

lemma divChecked_of_ne (x d : ℚ) (h : d ≠ 0) :
    divChecked x d = Option.some (x / d) := by
  simp [divChecked, h]

lemma sequenceOption_map (l : List DataRow) (f : DataRow → Option ℚ)
    (g : DataRow → ℚ) (h : ∀ r ∈ l, f r = Option.some (g r)) :
    sequenceOption (l.map f) = Option.some (l.map g) := by
  induction l with
  | nil => rfl
  | cons a t ih =>
      rw [List.map_cons, List.map_cons]
      show (f a).bind _ = _
      rw [h a (List.mem_cons_self a t),
        ih (fun r hr => h r (List.mem_cons_of_mem a hr))]
      rfl

lemma prA_one (s : AIPTW) (r : DataRow) : s.prA 1 r = s.propensity r := by
  simp [AIPTW.prA]

lemma prA_zero (s : AIPTW) (r : DataRow) : s.prA 0 r = 1 - s.propensity r := by
  norm_num [AIPTW.prA]

lemma pseudoOutcomeChecked_one (s : AIPTW) (r : DataRow)
    (h0 : 0 < s.propensity r) (h1 : s.propensity r < 1) :
    s.pseudoOutcomeChecked 1 r = Option.some (s.pseudoOutcome 1 r) := by
  have hne : s.prA 1 r ≠ 0 := by rw [prA_one]; exact ne_of_gt h0
  have hne2 : (1 : ℚ) - s.prA 1 r ≠ 0 := by
    rw [prA_one]; exact sub_ne_zero.mpr (ne_of_gt h1)
  unfold AIPTW.pseudoOutcomeChecked AIPTW.pseudoOutcome
  rw [divChecked_of_ne _ _ hne, divChecked_of_ne _ _ hne2]
  rfl

lemma pseudoOutcomeChecked_zero (s : AIPTW) (r : DataRow)
    (h0 : 0 < s.propensity r) (h1 : s.propensity r < 1) :
    s.pseudoOutcomeChecked 0 r = Option.some (s.pseudoOutcome 0 r) := by
  have hne : s.prA 0 r ≠ 0 := by
    rw [prA_zero]; exact sub_ne_zero.mpr (ne_of_gt h1)
  have hne2 : (1 : ℚ) - s.prA 0 r ≠ 0 := by
    rw [prA_zero]
    have he : (1 : ℚ) - (1 - s.propensity r) = s.propensity r := by ring
    rw [he]; exact ne_of_gt h0
  unfold AIPTW.pseudoOutcomeChecked AIPTW.pseudoOutcome
  rw [divChecked_of_ne _ _ hne, divChecked_of_ne _ _ hne2]
  rfl

lemma cleverHChecked_eq (s : TMLE) (r : DataRow)
    (h0 : 0 < s.g r) (h1 : s.g r < 1) :
    s.cleverHChecked r = Option.some (s.cleverH r) := by
  have hne : s.g r ≠ 0 := ne_of_gt h0
  have hne2 : (1 : ℚ) - s.g r ≠ 0 := sub_ne_zero.mpr (ne_of_gt h1)
  unfold TMLE.cleverHChecked TMLE.cleverH
  rw [divChecked_of_ne _ _ hne, divChecked_of_ne _ _ hne2]
  rfl

lemma cleverOneChecked_eq (s : TMLE) (r : DataRow) (h0 : 0 < s.g r) :
    s.cleverOneChecked r = Option.some (s.cleverH1 r) := by
  unfold TMLE.cleverOneChecked TMLE.cleverH1
  rw [divChecked_of_ne _ _ (ne_of_gt h0)]

lemma cleverZeroChecked_eq (s : TMLE) (r : DataRow) (h1 : s.g r < 1) :
    s.cleverZeroChecked r = Option.some (s.cleverH0 r) := by
  have hne2 : (1 : ℚ) - s.g r ≠ 0 := sub_ne_zero.mpr (ne_of_gt h1)
  unfold TMLE.cleverZeroChecked TMLE.cleverH0
  rw [divChecked_of_ne _ _ hne2]
  rfl

/-- C9: whenever every propensity lies strictly between 0 and 1, the
divisions in the AIPTW pseudo-outcomes (by P(A=a|L) and by 1-P(A=a|L)) and
in the TMLE clever covariates (by g(L) and by 1-g(L)) are divisions by
nonzero quantities: the guarded variants of those computations succeed and
agree with the unguarded fit computations. -/
theorem fit_divisions_total (sa : AIPTW) (st : TMLE)
    (ha : ∀ r ∈ sa.data, 0 < sa.propensity r ∧ sa.propensity r < 1)
    (ht : ∀ r ∈ st.data, 0 < st.g r ∧ st.g r < 1) :
    sa.riskAChecked 1 = Option.some (sa.riskA 1) ∧
    sa.riskAChecked 0 = Option.some (sa.riskA 0) ∧
    st.cleverAllChecked = Option.some (st.data.map st.cleverH) ∧
    st.cleverAllOneChecked = Option.some (st.data.map st.cleverH1) ∧
    st.cleverAllZeroChecked = Option.some (st.data.map st.cleverH0) := by
  refine ⟨?_, ?_, ?_, ?_, ?_⟩
  · unfold AIPTW.riskAChecked AIPTW.riskA
    rw [sequenceOption_map _ _ _
      (fun r hr => pseudoOutcomeChecked_one sa r (ha r hr).1 (ha r hr).2)]
    rfl
  · unfold AIPTW.riskAChecked AIPTW.riskA
    rw [sequenceOption_map _ _ _
      (fun r hr => pseudoOutcomeChecked_zero sa r (ha r hr).1 (ha r hr).2)]
    rfl
  · exact sequenceOption_map _ _ _
      (fun r hr => cleverHChecked_eq st r (ht r hr).1 (ht r hr).2)
  · exact sequenceOption_map _ _ _
      (fun r hr => cleverOneChecked_eq st r (ht r hr).1)
  · exact sequenceOption_map _ _ _
      (fun r hr => cleverZeroChecked_eq st r (ht r hr).2)

/-- Concrete AIPTW instance with all propensities equal to 1/2. -/
def aiptwTotalWitness : AIPTW :=
  ⟨[witnessRow], fun _ => 1 / 2, fun _ _ => 1 / 3, Option.none⟩

/-- Concrete TMLE instance with all propensities equal to 1/2. -/
def tmleTotalWitness : TMLE :=
  ⟨[witnessRow], fun _ => 1 / 2, fun _ _ => 1 / 3, Option.none⟩

/-- Witness for C9 at concrete estimator instances with propensity 1/2. -/
theorem fit_divisions_total_witness :
    (∀ r ∈ aiptwTotalWitness.data,
        0 < aiptwTotalWitness.propensity r ∧ aiptwTotalWitness.propensity r < 1) ∧
    (∀ r ∈ tmleTotalWitness.data,
        0 < tmleTotalWitness.g r ∧ tmleTotalWitness.g r < 1) ∧
    aiptwTotalWitness.riskAChecked 1 = Option.some (aiptwTotalWitness.riskA 1) := by
  have ha : ∀ r ∈ aiptwTotalWitness.data,
      0 < aiptwTotalWitness.propensity r ∧ aiptwTotalWitness.propensity r < 1 := by
    intro r hr
    simp only [aiptwTotalWitness, List.mem_singleton] at hr
    subst hr
    constructor <;> norm_num [aiptwTotalWitness, AIPTW.propensity, applyBound]
  have ht : ∀ r ∈ tmleTotalWitness.data,
      0 < tmleTotalWitness.g r ∧ tmleTotalWitness.g r < 1 := by
    intro r hr
    simp only [tmleTotalWitness, List.mem_singleton] at hr
    subst hr
    constructor <;> norm_num [tmleTotalWitness, TMLE.g, applyBound]
  exact ⟨ha, ht, (fit_divisions_total aiptwTotalWitness tmleTotalWitness ha ht).1⟩
